import Mathlib

/-!
Verification of the content_forge backend persistence and auth layer:
a shallow embedding of `utils/dynamodb.py`, `services/project_service.py`,
`models/project.py`, `models/common.py` and `utils/auth.py`.

Machine integers do not occur; timestamps are modelled as abstract ticks
(`Nat`), and `datetime.isoformat()` is modelled as an injective canonical
string rendering with a matching parser (pydantic parses ISO strings back
into `datetime` values).  External managed services (the DynamoDB backend
itself, the jose JWT library) are not part of the repository; where their
behaviour decides an operation it is modelled from the spec's boundary
descriptions and marked as such in the doc comments.
-/

namespace ContentForge

/-- Values storable in a DynamoDB item, as produced by `model.dict()`:
strings, datetime objects (abstract ticks), lists of strings, and nested
maps (for the nested `topic` model). -/
inductive DBValue where
  | s (v : String)
  | time (v : Nat)
  | l (v : List String)
  | m (v : List (String × DBValue))

/-- A storage item: a flat mapping from attribute name to value. -/
abbrev Item := List (String × DBValue)

/-- The managed key-value store: items addressed by (partition key, sort key). -/
abbrev Store := List ((String × String) × Item)

/-- Python exceptions relevant to this embedding. -/
inductive PyErr where
  | nameError
  | jsonDecodeError
  | validationError
  | attributeError
deriving DecidableEq, Repr

/-- First-match association-list lookup (Python `dict` access / `.get`). -/
def alistLookup {α : Type} : List (String × α) → String → Option α
  | [], _ => none
  | (k', v) :: rest, k => if k' = k then some v else alistLookup rest k

/-- String prefix test (`str.startswith`), at the character-list level. -/
def strStartsWith (s pre : String) : Bool :=
  pre.data.isPrefixOf s.data

/-- String slicing from an index (`str[n:]`), at the character-list level. -/
def strDrop (s : String) (n : Nat) : String :=
  ⟨s.data.drop n⟩

/-- Replace the value stored under a key, or append it (Python `dict` assignment,
and the effect of a DynamoDB `SET` action on one attribute). -/
def setField : Item → String → DBValue → Item
  | [], k, v => [(k, v)]
  | (k', v') :: rest, k, v =>
    if k' = k then (k, v) :: rest else (k', v') :: setField rest k v

/-- datetime.isoformat(): canonical, injective string form of a timestamp.
Modelled as a tagged rendering of the abstract tick. -/
def isoformat (n : Nat) : String :=
  ⟨'i' :: 's' :: 'o' :: ':' :: List.replicate n 'T'⟩

/-- Parse the canonical timestamp string form back to a tick (pydantic accepts
ISO-8601 strings for `datetime` fields). -/
def parseIso (s : String) : Option Nat :=
  match s.data with
  | 'i' :: 's' :: 'o' :: ':' :: rest =>
    if rest.all (· == 'T') then some rest.length else none
  | _ => none

/-- Modelled from the spec: `json.dumps` of a `LastEvaluatedKey` dict — an
injective, parseable serialization of a (partition key, sort key) pair,
used as the opaque pagination cursor. -/
def jsonDumpsKey (k : String × String) : String :=
  ⟨List.replicate k.1.length 'l' ++ ':' :: (k.1.data ++ k.2.data)⟩

/-- Modelled from the spec: `json.loads` applied to a pagination cursor.
Returns `none` exactly when the string is not a serialized key, in which
case the Python call raises `json.JSONDecodeError` (a `ValueError`). -/
def jsonLoadsKey (s : String) : Option (String × String) :=
  let n := (s.data.takeWhile (· == 'l')).length
  match s.data.drop n with
  | ':' :: rest => some (⟨rest.take n⟩, ⟨rest.drop n⟩)
  | _ => none

/-! ## Key-Value Store Gateway (`utils/dynamodb.py`, class DynamoDBClient)

The wrapper code is embedded from the source; the backing DynamoDB table it
talks to is an external managed service and is modelled from the spec's
Key-Value Store boundary (§6): every item carries `pk` and `sk` string
attributes that address it, exact-match on partition key, prefix-match on
sort key. A backend rejection surfaces as `botocore.ClientError`, which the
wrapper catches and converts to its declared failure result. -/

/-- Insert or replace the item stored under a key. -/
def storeInsert (st : Store) (k : String × String) (item : Item) : Store :=
  (k, item) :: st.filter (fun e => e.1 != k)

/-- DynamoDBClient.put_item: unconditional upsert. The backend rejects an item
missing its key attributes (`pk`, `sk`) with a `ClientError`, which the
wrapper catches, logs, and converts to `False`. -/
def put_item (st : Store) (item : Item) : Bool × Store :=
  match alistLookup item "pk", alistLookup item "sk" with
  | some (DBValue.s p), some (DBValue.s s) => (true, storeInsert st (p, s) item)
  | _, _ => (false, st)

/-- DynamoDBClient.get_item: point lookup; absent is `none`. -/
def get_item (st : Store) (pk sk : String) : Option Item :=
  (st.find? (fun e => e.1 == (pk, sk))).map (fun e => e.2)

/-- Result shape of DynamoDBClient.query_items. -/
structure QueryResult where
  items : List Item
  next_token : Option String

/-- Pure part of the query: filter by partition key and sort-key prefix
(in store-native order), resume after the exclusive start key, bound by
`limit` (Python truthiness: `limit = 0` applies no bound), and report a
`LastEvaluatedKey`-derived continuation token iff the page was cut short. -/
def queryCore (st : Store) (pk : String) (skPfx : Option String)
    (limit : Option Nat) (startKey : Option (String × String)) : QueryResult :=
  let matched := st.filter (fun (e : (String × String) × Item) =>
    e.1.1 == pk &&
    (match skPfx with
     | some p => if p = "" then true else strStartsWith e.1.2 p
     | none => true))
  let afterStart :=
    match startKey with
    | none => matched
    | some k => (matched.dropWhile (fun (e : (String × String) × Item) => e.1 != k)).drop 1
  let limited :=
    match limit with
    | some n => if n = 0 then afterStart else afterStart.take n
    | none => afterStart
  let lastKey :=
    match limit with
    | some n =>
      if n ≠ 0 ∧ n < afterStart.length then
        (limited.getLast?).map (fun (e : (String × String) × Item) => e.1)
      else none
    | none => none
  { items := limited.map (fun (e : (String × String) × Item) => e.2),
    next_token := lastKey.map jsonDumpsKey }

/-- DynamoDBClient.query_items. The `try` block catches only
`botocore.ClientError`; the `json.loads(next_token)` call on a malformed
cursor raises `json.JSONDecodeError`, which escapes the wrapper —
modelled as `Except.error PyErr.jsonDecodeError`. -/
def query_items (st : Store) (pk : String) (skPfx : Option String)
    (limit : Option Nat) (nextToken : Option String) : Except PyErr QueryResult :=
  match nextToken with
  | some t =>
    match jsonLoadsKey t with
    | none => Except.error PyErr.jsonDecodeError
    | some k => Except.ok (queryCore st pk skPfx limit (some k))
  | none => Except.ok (queryCore st pk skPfx limit none)

/-! ### Update expressions

`DynamoDBClient.update_item` hands the expression string to the backend;
the backend's `SET` grammar (a non-empty comma-separated list of
`path = :value` assignments, names optionally aliased through `#placeholder`)
is modelled by the parser below. A string the backend cannot parse is
rejected with a `ClientError`, which the wrapper converts to `False`. -/

/-- Split a character list on every occurrence of the two-character
separator ", ". -/
def splitCommaSp : List Char → List (List Char)
  | [] => [[]]
  | ',' :: ' ' :: rest => [] :: splitCommaSp rest
  | c :: rest =>
    match splitCommaSp rest with
    | [] => [[c]]
    | g :: gs => (c :: g) :: gs

/-- Split a character list at the first occurrence of " = ". -/
def splitEq : List Char → Option (List Char × List Char)
  | [] => none
  | ' ' :: '=' :: ' ' :: rest => some ([], rest)
  | c :: rest => (splitEq rest).map (fun p => (c :: p.1, p.2))

/-- Parse one `SET` assignment `lhs = :value`: a non-empty attribute path on
the left, a non-empty `:`-prefixed value placeholder on the right. -/
def parseAssign (cs : List Char) : Option (String × String) :=
  match splitEq cs with
  | some (l, r) =>
    match l, r with
    | [], _ => none
    | _, ':' :: v => if v = [] then none else some (⟨l⟩, ⟨':' :: v⟩)
    | _, _ => none
  | none => none

/-- Parse a full `SET` update expression into its assignment list;
`none` means the backend rejects the expression as malformed. -/
def parseSetExpr (e : String) : Option (List (String × String)) :=
  match e.data with
  | 'S' :: 'E' :: 'T' :: ' ' :: rest => (splitCommaSp rest).mapM parseAssign
  | _ => none

/-- An update expression is well-formed iff the backend's grammar accepts it. -/
def isWellFormedSetExpr (e : String) : Bool :=
  (parseSetExpr e).isSome

/-- Resolve the left-hand side of an assignment: a `#placeholder` goes through
the `ExpressionAttributeNames` table, anything else is a literal name. -/
def resolveName (names : List (String × String)) (lhs : String) : Option String :=
  if strStartsWith lhs "#" then alistLookup names lhs else some lhs

/-- Resolve every parsed assignment against the name and value tables. -/
def resolveAssigns (names : List (String × String)) (vals : List (String × DBValue)) :
    List (String × String) → Option (List (String × DBValue))
  | [] => some []
  | a :: rest =>
    match resolveName names a.1, alistLookup vals a.2, resolveAssigns names vals rest with
    | some n, some v, some l => some ((n, v) :: l)
    | _, _, _ => none

/-- DynamoDBClient.update_item: parse and resolve the update expression, then
apply the assignments to the addressed item (the backend upserts: a missing
item is created carrying its key attributes). A malformed expression or an
unresolvable placeholder is a backend `ClientError`, caught and converted
to `False`. -/
def update_item (st : Store) (pk sk : String) (updateExpr : String)
    (exprValues : List (String × DBValue)) (exprNames : List (String × String)) :
    Bool × Store :=
  match parseSetExpr updateExpr with
  | none => (false, st)
  | some assigns =>
    match resolveAssigns exprNames exprValues assigns with
    | none => (false, st)
    | some fields =>
      let base := (get_item st pk sk).getD [("pk", DBValue.s pk), ("sk", DBValue.s sk)]
      let newItem := fields.foldl (fun it f => setField it f.1 f.2) base
      (true, storeInsert st (pk, sk) newItem)

/-! ## Data model (`models/project.py`, `models/common.py`) -/

/-- ContentTopic (models/project.py). -/
structure ContentTopic where
  title : String
  description : String
  keywords : List String
  selected_at : Nat
deriving DecidableEq, Repr

/-- ProjectInput (models/project.py): already validated by pydantic at
construction (non-empty, bounded-length strings). -/
structure ProjectInput where
  name : String
  niche : String
  target_audience : String
deriving DecidableEq, Repr

/-- Project (models/project.py, extending BaseDBModel of models/common.py).
Timestamps are abstract ticks. The four routing fields are declared with
`Field(exclude=True)` in the source, so they are omitted from `.dict()`
exports (the record's public shape and its storage encoding). -/
structure Project where
  id : String
  created_at : Nat
  updated_at : Nat
  user_id : String
  name : String
  niche : String
  target_audience : String
  topic : Option ContentTopic
  status : String
  pk : String
  sk : String
  gsi1pk : Option String
  gsi1sk : Option String
deriving DecidableEq, Repr

/-- ProjectUpdate (models/project.py) under `dict(exclude_unset=True)`:
`some v` means the field is present in the patch. -/
structure ProjectUpdate where
  name : Option String
  niche : Option String
  target_audience : Option String
  topic : Option ContentTopic
  status : Option String
deriving DecidableEq, Repr

/-- PaginatedResponse (models/common.py), specialised to projects. -/
structure PaginatedResponse where
  items : List Project
  next_token : Option String
  total_count : Option Nat
deriving DecidableEq, Repr

/-- The `status` regex of models/project.py: `^(active|archived|deleted)$`. -/
def statusOk (s : String) : Bool :=
  s == "active" || s == "archived" || s == "deleted"

/-! ## Item Codec (`utils/dynamodb.py`, module-level helpers) -/

/-- Nested `.dict()` export of a ContentTopic (its datetime stays a datetime
object: the codec's ISO conversion walks only the top level of the item). -/
def topicToDict (t : ContentTopic) : List (String × DBValue) :=
  [("title", DBValue.s t.title), ("description", DBValue.s t.description),
   ("keywords", DBValue.l t.keywords), ("selected_at", DBValue.time t.selected_at)]

/-- Project.dict(exclude_none=True): fields in declaration order; `topic` is
dropped when `None`; `pk`, `sk`, `gsi1pk`, `gsi1sk` are dropped because they
are declared `Field(exclude=True)` (and the latter two also when `None`). -/
def projectDict (p : Project) : Item :=
  [("id", DBValue.s p.id), ("created_at", DBValue.time p.created_at),
   ("updated_at", DBValue.time p.updated_at), ("user_id", DBValue.s p.user_id),
   ("name", DBValue.s p.name), ("niche", DBValue.s p.niche),
   ("target_audience", DBValue.s p.target_audience)]
  ++ (match p.topic with
      | some t => [("topic", DBValue.m (topicToDict t))]
      | none => [])
  ++ [("status", DBValue.s p.status)]

/-- model_to_dynamodb_item: `model.dict(exclude_none=True)` followed by the
top-level conversion of datetime values to ISO strings. -/
def model_to_dynamodb_item (p : Project) : Item :=
  (projectDict p).map (fun kv =>
    match kv with
    | (k, DBValue.time n) => (k, DBValue.s (isoformat n))
    | kv => kv)

/-- Read a required pydantic `str` field: missing or non-string raises
`ValidationError`. -/
def reqStr (it : Item) (k : String) : Except PyErr String :=
  match alistLookup it k with
  | some (DBValue.s v) => Except.ok v
  | _ => Except.error PyErr.validationError

/-- Read an optional pydantic `str` field with a default. -/
def optStr (it : Item) (k : String) (dflt : String) : Except PyErr String :=
  match alistLookup it k with
  | none => Except.ok dflt
  | some (DBValue.s v) => Except.ok v
  | some _ => Except.error PyErr.validationError

/-- Read an `Optional[str]` field defaulting to `None`. -/
def optStrOpt (it : Item) (k : String) : Except PyErr (Option String) :=
  match alistLookup it k with
  | none => Except.ok none
  | some (DBValue.s v) => Except.ok (some v)
  | some _ => Except.error PyErr.validationError

/-- Parse a pydantic `datetime` field value: a datetime object or an
ISO-8601 string. -/
def decodeDatetime (v : DBValue) : Option Nat :=
  match v with
  | DBValue.time n => some n
  | DBValue.s s => parseIso s
  | _ => none

/-- Read an optional pydantic `datetime` field with a default factory. -/
def optDatetime (it : Item) (k : String) (dflt : Nat) : Except PyErr Nat :=
  match alistLookup it k with
  | none => Except.ok dflt
  | some v =>
    match decodeDatetime v with
    | some n => Except.ok n
    | none => Except.error PyErr.validationError

/-- Validate a nested ContentTopic value. -/
def decodeTopic (v : DBValue) : Option ContentTopic :=
  match v with
  | DBValue.m d =>
    match alistLookup d "title", alistLookup d "description",
          alistLookup d "keywords", alistLookup d "selected_at" with
    | some (DBValue.s t), some (DBValue.s ds), some (DBValue.l kw), some sv =>
      (decodeDatetime sv).map (fun n => ContentTopic.mk t ds kw n)
    | _, _, _, _ => none
  | _ => none

/-- Read the `Optional[ContentTopic]` field. -/
def optTopic (it : Item) : Except PyErr (Option ContentTopic) :=
  match alistLookup it "topic" with
  | none => Except.ok none
  | some v =>
    match decodeTopic v with
    | some t => Except.ok (some t)
    | none => Except.error PyErr.validationError

/-- dynamodb_item_to_model (specialised to Project): strips keys carrying the
reserved `#` marker, then validates `Project(**cleaned_item)`. pydantic
raises `ValidationError` on a missing required field, an incompatible value,
or a `status` outside the declared regex; the helper itself catches nothing,
so the error crosses its boundary. `freshId` and `now` stand for the
`uuid4`/`utcnow` default factories invoked when `id` or a timestamp is
absent from the item. -/
def dynamodb_item_to_model (freshId : String) (now : Nat) (item : Item) :
    Except PyErr Project := do
  let cleaned := item.filter (fun kv => !(strStartsWith kv.1 "#"))
  let pid ← optStr cleaned "id" freshId
  let createdAt ← optDatetime cleaned "created_at" now
  let updatedAt ← optDatetime cleaned "updated_at" now
  let userId ← reqStr cleaned "user_id"
  let name ← reqStr cleaned "name"
  let niche ← reqStr cleaned "niche"
  let ta ← reqStr cleaned "target_audience"
  let topic ← optTopic cleaned
  let status ← optStr cleaned "status" "active"
  if statusOk status then
    let pk ← optStr cleaned "pk" ""
    let sk ← optStr cleaned "sk" ""
    let g1 ← optStrOpt cleaned "gsi1pk"
    let g2 ← optStrOpt cleaned "gsi1sk"
    Except.ok
      { id := pid, created_at := createdAt, updated_at := updatedAt,
        user_id := userId, name := name, niche := niche, target_audience := ta,
        topic := topic, status := status, pk := pk, sk := sk,
        gsi1pk := g1, gsi1sk := g2 }
  else Except.error PyErr.validationError

/-! ## Record Service (`services/project_service.py`, class ProjectService)

The module imports `logging`, `typing`, the models and the DynamoDB helpers —
and nothing else. In particular it never imports `datetime`, although
`update_project` (line 109) and `delete_project` (line 156) evaluate
`datetime.utcnow()`; at runtime that raises `NameError`, which each method's
`except Exception` handler converts into its failure result. -/

/-- Evaluating `datetime.utcnow()` inside project_service.py: the name
`datetime` is unbound in that module, so the expression raises `NameError`
instead of producing a timestamp. -/
def datetimeUtcnow : Except PyErr Nat :=
  Except.error PyErr.nameError

/-- ProjectService.get_project: point read of `(USER#uid, PROJECT#pid)` and
decode; a decode error is caught by the method's `except Exception` handler
and converted to `None`. An empty item dict is falsy in Python and also
yields `None`. -/
def get_project (freshId : String) (now : Nat) (st : Store)
    (userId projectId : String) : Option Project :=
  match get_item st ("USER#" ++ userId) ("PROJECT#" ++ projectId) with
  | some item =>
    if item.isEmpty then none
    else
      match dynamodb_item_to_model freshId now item with
      | Except.ok p => some p
      | Except.error _ => none
  | none => none

/-- The Project object built by ProjectService.create_project before
persisting: fresh id and per-field default-factory timestamps (`nowC` and
`nowU` are two separate `utcnow()` draws), status "active", and the four
routing fields assigned from the record's identity. -/
def createdProject (freshId : String) (nowC nowU : Nat) (userId : String)
    (inp : ProjectInput) : Project :=
  { id := freshId, created_at := nowC, updated_at := nowU, user_id := userId,
    name := inp.name, niche := inp.niche, target_audience := inp.target_audience,
    topic := none, status := "active",
    pk := "USER#" ++ userId, sk := "PROJECT#" ++ freshId,
    gsi1pk := some ("PROJECT#" ++ freshId), gsi1sk := some "METADATA" }

/-- ProjectService.create_project: build the record, encode it with
`model_to_dynamodb_item`, persist via the Gateway `put`, and return the
record on success or `None` on failure. -/
def create_project (freshId : String) (nowC nowU : Nat) (st : Store)
    (userId : String) (inp : ProjectInput) : Option Project × Store :=
  let project := createdProject freshId nowC nowU userId inp
  let item := model_to_dynamodb_item project
  match put_item st item with
  | (true, st') => (some project, st')
  | (false, st') => (none, st')

/-- Decode the items of a query page one by one, as the `for` loop of
ProjectService.list_projects does; the first `ValidationError` raised by
`dynamodb_item_to_model` escapes the loop. -/
def decodeItems (freshId : String) (now : Nat) : List Item → Except PyErr (List Project)
  | [] => Except.ok []
  | it :: rest =>
    match dynamodb_item_to_model freshId now it with
    | Except.error e => Except.error e
    | Except.ok p =>
      match decodeItems freshId now rest with
      | Except.error e => Except.error e
      | Except.ok ps => Except.ok (p :: ps)

/-- ProjectService.list_projects: query the owner partition with prefix
"PROJECT#", decode each item, keep those whose status is not "deleted"
(a Project instance is always truthy, so `if project` filters nothing), and
forward the continuation token. Any exception inside the `try` block —
including a decode error on a single item — is caught by the method's
`except Exception` handler, which returns an empty page with no token. -/
def list_projects (freshId : String) (now : Nat) (st : Store) (userId : String)
    (limit : Nat) (nextToken : Option String) : PaginatedResponse :=
  match query_items st ("USER#" ++ userId) (some "PROJECT#") (some limit) nextToken with
  | Except.error _ => { items := [], next_token := none, total_count := none }
  | Except.ok r =>
    match decodeItems freshId now r.items with
    | Except.error _ => { items := [], next_token := none, total_count := none }
    | Except.ok ps =>
      { items := ps.filter (fun p => p.status != "deleted"),
        next_token := r.next_token, total_count := none }

/-- The fields present in a patch, in `dict(exclude_unset=True)` order
(the model's declaration order). -/
def updateFields (u : ProjectUpdate) : List String :=
  (match u.name with | some _ => ["name"] | none => [])
  ++ (match u.niche with | some _ => ["niche"] | none => [])
  ++ (match u.target_audience with | some _ => ["target_audience"] | none => [])
  ++ (match u.topic with | some _ => ["topic"] | none => [])
  ++ (match u.status with | some _ => ["status"] | none => [])

/-- The `(field, value)` pairs of a patch, in the same order. -/
def updatePairs (u : ProjectUpdate) : List (String × DBValue) :=
  (match u.name with | some v => [("name", DBValue.s v)] | none => [])
  ++ (match u.niche with | some v => [("niche", DBValue.s v)] | none => [])
  ++ (match u.target_audience with
      | some v => [("target_audience", DBValue.s v)] | none => [])
  ++ (match u.topic with
      | some t => [("topic", DBValue.m (topicToDict t))] | none => [])
  ++ (match u.status with | some v => [("status", DBValue.s v)] | none => [])

/-- The `setattr` loop of ProjectService.update_project: apply exactly the
fields present in the patch to the in-memory record. -/
def mergePatch (p : Project) (u : ProjectUpdate) : Project :=
  { p with
    name := u.name.getD p.name,
    niche := u.niche.getD p.niche,
    target_audience := u.target_audience.getD p.target_audience,
    topic := (match u.topic with | some t => some t | none => p.topic),
    status := u.status.getD p.status }

/-- The update-expression construction of ProjectService.update_project
(lines 111-125): start from "SET ", append `#fieldI = :valueI` clauses
comma-separated, then always append ", #updated_at = :updated_at". -/
def buildUpdateExpression (fields : List String) : String :=
  (List.range fields.length).foldl
    (fun acc i =>
      acc ++ (if i > 0 then ", " else "") ++ "#field" ++ toString i
        ++ " = :value" ++ toString i)
    "SET " ++ ", #updated_at = :updated_at"

/-- ProjectService.update_project: re-read the record, merge the patch
locally, stamp the update timestamp, build the update expression, persist
the delta via the Gateway `update`, and return the merged record. The
timestamp stamping evaluates `datetime.utcnow()` — a `NameError` in this
module — so control reaches the `except Exception` handler, which returns
`None`; the store is never touched past the read. -/
def update_project (freshId : String) (now : Nat) (st : Store)
    (userId projectId : String) (u : ProjectUpdate) : Option Project × Store :=
  match get_project freshId now st userId projectId with
  | none => (none, st)
  | some project =>
    let merged := mergePatch project u
    match datetimeUtcnow with
    | Except.error _ => (none, st)
    | Except.ok t =>
      let stamped := { merged with updated_at := t }
      let pairs := updatePairs u
      let updateExpr := buildUpdateExpression (updateFields u)
      let exprNames :=
        (pairs.enum.map (fun e => ("#field" ++ toString e.1, e.2.1)))
        ++ [("#updated_at", "updated_at")]
      let exprValues :=
        (pairs.enum.map (fun e => (":value" ++ toString e.1, e.2.2)))
        ++ [(":updated_at", DBValue.s (isoformat t))]
      match update_item st ("USER#" ++ userId) ("PROJECT#" ++ projectId)
          updateExpr exprValues exprNames with
      | (true, st') => (some stamped, st')
      | (false, st') => (none, st')

/-- ProjectService.delete_project: soft delete by setting status to
"deleted" via the Gateway `update`. The expression-values dict evaluates
`datetime.utcnow()` — a `NameError` in this module — before the Gateway is
called, so the `except Exception` handler returns `False` and the store is
never touched. -/
def delete_project (st : Store) (userId projectId : String) : Bool × Store :=
  match datetimeUtcnow with
  | Except.error _ => (false, st)
  | Except.ok t =>
    update_item st ("USER#" ++ userId) ("PROJECT#" ++ projectId)
      "SET #status = :status, #updated_at = :updated_at"
      [(":status", DBValue.s "deleted"), (":updated_at", DBValue.s (isoformat t))]
      [("#status", "status"), ("#updated_at", "updated_at")]

/-! ## Auth Gateway (`utils/auth.py`)

The jose JWT library is an external dependency, not part of the repository.
Its header/claims/signature handling is modelled from the spec (§4.4, §6):
a token's header names a key id; verification checks the signature against
the key cached under that id, the audience against the configured client id,
and the issuer against the Cognito pool URL. Tokens are serialized as
"kid|sub|aud|iss|sigkey" (five fields); anything else fails header
decoding. An empty `sub` field models a token without a subject claim. -/

/-- Claims are the decoded token payload: an association list. -/
abbrev Claims := List (String × String)

/-- CognitoAuthManager: configuration plus the process-wide public-key
cache, `kid ↦ key material` (`public_keys = []` models the never-populated
or empty cache). -/
structure AuthManager where
  user_pool_id : String
  app_client_id : String
  region : String
  public_keys : List (String × String)

/-- The issuer string verify_token checks against. -/
def cognitoIssuer (m : AuthManager) : String :=
  "https://cognito-idp." ++ m.region ++ ".amazonaws.com/" ++ m.user_pool_id

/-- Split a character list on every occurrence of the field separator. -/
def splitBar : List Char → List (List Char)
  | [] => [[]]
  | '|' :: rest => [] :: splitBar rest
  | c :: rest =>
    match splitBar rest with
    | [] => [[c]]
    | g :: gs => (c :: g) :: gs

/-- Modelled from the spec: `jwt.get_unverified_header` / the wire format —
split a serialized token into (kid, sub, aud, iss, sigkey); `none` means the
jose call raises on a malformed token. -/
def jwtParts (token : String) : Option (String × String × String × String × String) :=
  match (splitBar token.data).map (fun l => (⟨l⟩ : String)) with
  | [kid, sub, aud, iss, sig] => some (kid, sub, aud, iss, sig)
  | _ => none

/-- The claims carried by a verified token: the subject when present, plus
the verified audience and issuer. -/
def claimsOf (sub aud iss : String) : Claims :=
  (if sub = "" then [] else [("sub", sub)]) ++ [("aud", aud), ("iss", iss)]

/-- CognitoAuthManager.get_public_keys: returns the cache when populated.
When the cache is empty/None the code calls `self.cognito_client.get_jwks()`
— a method boto3's cognito-idp client does not have — raising
`AttributeError`, which the method's `except ClientError` clause does not
catch, so it escapes to the caller. -/
def get_public_keys (m : AuthManager) : Except PyErr (List (String × String)) :=
  if m.public_keys.isEmpty then Except.error PyErr.attributeError
  else Except.ok m.public_keys

/-- CognitoAuthManager.verify_token: decode the header for the key id,
reject when the key id is not in the cached key set, otherwise verify
signature, audience and issuer (jose raises on any mismatch). Every
exception inside the body is caught by `except Exception` and converted to
`None`; rejected tokens never yield claims. -/
def verify_token (m : AuthManager) (token : String) : Option Claims :=
  match jwtParts token with
  | none => none
  | some (kid, sub, aud, iss, sig) =>
    match get_public_keys m with
    | Except.error _ => none
    | Except.ok keys =>
      match alistLookup keys kid with
      | none => none
      | some key =>
        if sig == key && aud == m.app_client_id && iss == cognitoIssuer m then
          some (claimsOf sub aud iss)
        else none

/-- The authorizer event: `event.get('authorizationToken')` and
`event['methodArn']`. -/
structure AuthorizerEvent where
  authorizationToken : Option String
  methodArn : String

/-- The IAM policy document produced by the authorizer, flattened to the
fields the code sets: principal, effect, resource, optional claims context. -/
structure AuthPolicy where
  principalId : String
  effect : String
  resource : String
  context : Option Claims
deriving DecidableEq, Repr

/-- generate_policy: assemble the authorizer response. -/
def generate_policy (principal effect resource : String) (ctx : Option Claims) :
    AuthPolicy :=
  { principalId := principal, effect := effect, resource := resource, context := ctx }

/-- Python `dict.get` with a default, for claims. -/
def claimsGet (c : Claims) (k dflt : String) : String :=
  (alistLookup c k).getD dflt

/-- The Bearer-prefix stripping of the lambda authorizer. -/
def stripBearer (t : String) : String :=
  if strStartsWith t "Bearer " then strDrop t 7 else t

/-- create_lambda_authorizer's handler: deny when the token is absent or
falsy (the empty string), otherwise strip a Bearer prefix, verify, deny on
rejection or on a falsy (empty) claims dict, and allow with the subject
claim as principal (defaulting to "user") and the claims as context. -/
def lambda_authorizer (m : AuthManager) (event : AuthorizerEvent) : AuthPolicy :=
  match event.authorizationToken with
  | none => generate_policy "user" "Deny" event.methodArn none
  | some tok =>
    if tok = "" then generate_policy "user" "Deny" event.methodArn none
    else
      match verify_token m (stripBearer tok) with
      | none => generate_policy "user" "Deny" event.methodArn none
      | some claims =>
        if claims.isEmpty then generate_policy "user" "Deny" event.methodArn none
        else
          generate_policy (claimsGet claims "sub" "user") "Allow" event.methodArn
            (some claims)

/-! ## Helper lemmas -/

/-- The timestamp rendering round-trips through its parser. -/
theorem parseIso_isoformat (n : Nat) : parseIso (isoformat n) = some n := by
  simp [parseIso, isoformat, List.all_eq_true, List.mem_replicate]

/-- A pagination cursor produced by the Gateway parses back to its key. -/
theorem jsonLoadsKey_dumps (k : String × String) :
    jsonLoadsKey (jsonDumpsKey k) = some k := by
  obtain ⟨p, s⟩ := k
  simp [jsonLoadsKey, jsonDumpsKey]

/-- If any item of a page fails to decode, decoding the page fails. -/
theorem decodeItems_isOk_false (f : String) (n : Nat) (items : List Item) (it : Item)
    (hmem : it ∈ items) (herr : (dynamodb_item_to_model f n it).isOk = false) :
    (decodeItems f n items).isOk = false := by
  induction items with
  | nil => cases hmem
  | cons hd tl ih =>
    rcases List.mem_cons.mp hmem with heq | htl
    · subst heq
      unfold decodeItems
      cases hd_res : dynamodb_item_to_model f n it with
      | error e => rfl
      | ok p => rw [hd_res] at herr; simp [Except.isOk, Except.toBool] at herr
    · unfold decodeItems
      cases hd_res : dynamodb_item_to_model f n hd with
      | error e => rfl
      | ok p =>
        have htl' := ih htl
        cases tl_res : decodeItems f n tl with
        | error e => rfl
        | ok ps => rw [tl_res] at htl'; simp [Except.isOk, Except.toBool] at htl'

/-- Verified claims always contain the audience and issuer entries, hence are
never the empty dict (which would be falsy in Python). -/
theorem verify_token_claims_ne_empty (m : AuthManager) (tok : String) (c : Claims)
    (hv : verify_token m tok = some c) : c.isEmpty = false := by
  unfold verify_token at hv
  cases hp : jwtParts tok with
  | none => rw [hp] at hv; cases hv
  | some q =>
    obtain ⟨kid, sub, aud, iss, sig⟩ := q
    rw [hp] at hv
    dsimp only at hv
    cases hg : get_public_keys m with
    | error e => rw [hg] at hv; cases hv
    | ok keys =>
      rw [hg] at hv
      dsimp only at hv
      cases hl : alistLookup keys kid with
      | none => rw [hl] at hv; cases hv
      | some key =>
        rw [hl] at hv
        dsimp only at hv
        by_cases hc : (sig == key && aud == m.app_client_id && iss == cognitoIssuer m) = true
        · rw [if_pos hc] at hv
          cases hv
          simp [claimsOf]
        · rw [if_neg hc] at hv; cases hv

/-! ## Claim theorems -/

/-- C1. The claim says update_project applies the patch, advances the update
timestamp, persists the delta, and returns the locally-merged record. In the
code, `datetime` is never imported in project_service.py, so the timestamp
stamping raises `NameError`, the `except Exception` handler fires, and
update_project returns `None` for every input — existing record or not —
leaving the store untouched. -/
theorem update_project_always_absent (f : String) (n : Nat) (st : Store)
    (userId projectId : String) (u : ProjectUpdate) :
    update_project f n st userId projectId u = (none, st) := by
  unfold update_project
  cases get_project f n st userId projectId <;> rfl

/-- C2. The claim says a succeeded delete_project soft-deletes the record
(hidden from list, visible via get with status "deleted"). In the code,
`datetime.utcnow()` raises `NameError` (`datetime` is never imported in
project_service.py) before the Gateway is called, so delete_project returns
`False` for every input and never marks anything deleted: the claim's
premise "after delete succeeds" is unsatisfiable. -/
theorem delete_project_always_fails (st : Store) (userId projectId : String) :
    delete_project st userId projectId = (false, st) := rfl

/-- C3. Round-trip law: decoding the item produced by encoding a record
yields the record with every public field intact, while the four routing
fields are absent from the encoded item (they are `Field(exclude=True)`)
and therefore come back as their constructor defaults, never from the
record — they do not reappear in the decoded record's public shape. -/
theorem encode_decode_roundtrip (f : String) (n : Nat) (p : Project)
    (h : statusOk p.status = true) :
    dynamodb_item_to_model f n (model_to_dynamodb_item p) =
      Except.ok { p with pk := "", sk := "", gsi1pk := none, gsi1sk := none } ∧
    alistLookup (model_to_dynamodb_item p) "pk" = none ∧
    alistLookup (model_to_dynamodb_item p) "sk" = none ∧
    alistLookup (model_to_dynamodb_item p) "gsi1pk" = none ∧
    alistLookup (model_to_dynamodb_item p) "gsi1sk" = none := by
  cases htop : p.topic with
  | none =>
    have hitem : model_to_dynamodb_item p =
        [("id", DBValue.s p.id), ("created_at", DBValue.s (isoformat p.created_at)),
         ("updated_at", DBValue.s (isoformat p.updated_at)), ("user_id", DBValue.s p.user_id),
         ("name", DBValue.s p.name), ("niche", DBValue.s p.niche),
         ("target_audience", DBValue.s p.target_audience), ("status", DBValue.s p.status)] := by
      simp [model_to_dynamodb_item, projectDict, htop]
    refine ⟨?_, ?_, ?_, ?_, ?_⟩
    · rw [hitem]
      simp [dynamodb_item_to_model, optStr, optStrOpt, optDatetime, optTopic, reqStr,
        alistLookup, decodeDatetime, parseIso_isoformat, h, bind, Except.bind]
    all_goals rw [hitem]; rfl
  | some t =>
    have hitem : model_to_dynamodb_item p =
        [("id", DBValue.s p.id), ("created_at", DBValue.s (isoformat p.created_at)),
         ("updated_at", DBValue.s (isoformat p.updated_at)), ("user_id", DBValue.s p.user_id),
         ("name", DBValue.s p.name), ("niche", DBValue.s p.niche),
         ("target_audience", DBValue.s p.target_audience),
         ("topic", DBValue.m (topicToDict t)), ("status", DBValue.s p.status)] := by
      simp [model_to_dynamodb_item, projectDict, htop]
    refine ⟨?_, ?_, ?_, ?_, ?_⟩
    · rw [hitem]
      simp [dynamodb_item_to_model, optStr, optStrOpt, optDatetime, optTopic, reqStr,
        alistLookup, decodeDatetime, decodeTopic, topicToDict, parseIso_isoformat, h,
        bind, Except.bind, htop]
    all_goals rw [hitem]; rfl

/-- A record as built by create_project for owner U1 and then round-tripped,
with a selected topic attached. -/
def sampleProject : Project :=
  { id := "P1", created_at := 3, updated_at := 4, user_id := "U1",
    name := "Weekly Vlog", niche := "travel", target_audience := "young adults",
    topic := some { title := "T1", description := "D1", keywords := ["k1"], selected_at := 5 },
    status := "active",
    pk := "USER#U1", sk := "PROJECT#P1", gsi1pk := some "PROJECT#P1",
    gsi1sk := some "METADATA" }

/-- C3 witness: the round-trip law evaluated at a concrete record. -/
theorem encode_decode_roundtrip_witness :
    dynamodb_item_to_model "id-9" 9 (model_to_dynamodb_item sampleProject) =
      Except.ok { sampleProject with pk := "", sk := "", gsi1pk := none, gsi1sk := none } :=
  (encode_decode_roundtrip "id-9" 9 sampleProject (by decide)).1

/-- C4. The claim says every item handed to the Gateway's put by
create_project carries the `pk` and `sk` key attributes. In the code the
routing fields are declared `Field(exclude=True)`, so `model.dict()` — and
hence `model_to_dynamodb_item` — omits all four of them: the item handed to
put has no `pk`, `sk`, `gsi1pk` or `gsi1sk` key, violating the store
boundary shape. -/
theorem create_put_item_missing_routing_keys (f : String) (nowC nowU : Nat)
    (userId : String) (inp : ProjectInput) :
    alistLookup (model_to_dynamodb_item (createdProject f nowC nowU userId inp)) "pk" = none ∧
    alistLookup (model_to_dynamodb_item (createdProject f nowC nowU userId inp)) "sk" = none ∧
    alistLookup (model_to_dynamodb_item (createdProject f nowC nowU userId inp)) "gsi1pk" = none ∧
    alistLookup (model_to_dynamodb_item (createdProject f nowC nowU userId inp)) "gsi1sk" = none :=
  ⟨rfl, rfl, rfl, rfl⟩

/-- C5 counterexample. The claim says Gateway and Codec never raise across
their boundary. Concretely: query_items over any store with the malformed
cursor "not json" propagates the JSON decode error (only `ClientError` is
caught), and decoding a schema-incompatible stored item (here: missing
every required field) does not return the declared failure result but
raises a validation error. -/
theorem gateway_raises_counterexample :
    query_items [] "USER#U1" (some "PROJECT#") (some 20) (some "not json") =
      Except.error PyErr.jsonDecodeError ∧
    (dynamodb_item_to_model "fresh" 0 [("pk", DBValue.s "USER#U1")]).isOk = false :=
  ⟨rfl, rfl⟩

/-- C5 (amended). Gateway operations convert backend client errors into their
declared results, and query never raises when the cursor is absent or was
produced by the Gateway itself; but a cursor that fails JSON parsing makes
query raise a JSON decode error across its boundary, and the Codec's decode
raises a validation error on a schema-incompatible item instead of
returning a declared failure result. -/
theorem gateway_codec_error_propagation_amended :
    (∀ (st : Store) (pk : String) (pfx : Option String) (lim : Option Nat),
      (query_items st pk pfx lim none).isOk = true) ∧
    (∀ (st : Store) (pk : String) (pfx : Option String) (lim : Option Nat)
        (k : String × String),
      (query_items st pk pfx lim (some (jsonDumpsKey k))).isOk = true) ∧
    (∀ (st : Store) (pk : String) (pfx : Option String) (lim : Option Nat)
        (t : String), jsonLoadsKey t = none →
      query_items st pk pfx lim (some t) = Except.error PyErr.jsonDecodeError) ∧
    dynamodb_item_to_model "fresh" 0 [("pk", DBValue.s "USER#U1")] =
      Except.error PyErr.validationError := by
  refine ⟨fun st pk pfx lim => rfl, fun st pk pfx lim k => ?_,
    fun st pk pfx lim t h => ?_, rfl⟩
  · simp [query_items, jsonLoadsKey_dumps, Except.isOk, Except.toBool]
  · simp [query_items, h]

/-- C5 witness: the amended statement applied at a concrete malformed cursor. -/
theorem gateway_codec_error_propagation_witness :
    query_items [] "U" none none (some "x") = Except.error PyErr.jsonDecodeError :=
  gateway_codec_error_propagation_amended.2.2.1 [] "U" none none "x" rfl

/-- A fully decodable stored project item for owner U1. -/
def listGoodItem : Item :=
  [("id", DBValue.s "P1"), ("created_at", DBValue.s (isoformat 3)),
   ("updated_at", DBValue.s (isoformat 3)), ("user_id", DBValue.s "U1"),
   ("name", DBValue.s "Weekly Vlog"), ("niche", DBValue.s "travel"),
   ("target_audience", DBValue.s "young adults"), ("status", DBValue.s "active")]

/-- A schema-incompatible stored item under the same partition: it lacks the
required `name`, `niche` and `target_audience` fields. -/
def listBadItem : Item :=
  [("id", DBValue.s "P2"), ("user_id", DBValue.s "U1"), ("status", DBValue.s "active")]

/-- A store whose owner partition holds one decodable and one undecodable
project item. -/
def listMixedStore : Store :=
  [(("USER#U1", "PROJECT#P1"), listGoodItem), (("USER#U1", "PROJECT#P2"), listBadItem)]

/-- C6 counterexample. The claim says a decode failure on one item is
skipped and the remaining decodable items are still returned. Concretely:
the good item decodes on its own, yet listing the mixed page returns no
items at all — the decodable item is dropped along with the bad one. -/
theorem list_decode_failure_not_skipped_counterexample :
    (dynamodb_item_to_model "fresh" 0 listGoodItem).isOk = true ∧
    list_projects "fresh" 0 listMixedStore "U1" 20 none =
      { items := [], next_token := none, total_count := none } :=
  ⟨rfl, rfl⟩

/-- C6 (amended). A decode failure on an individual stored item is fatal to
the whole listing: the validation error escapes the per-item loop, the
method's outer exception handler fires, and list_projects returns an empty
page with no continuation token, dropping the decodable items too. -/
theorem list_decode_failure_fatal_amended (f : String) (n : Nat) (st : Store)
    (userId : String) (lim : Nat) (tok : Option String) (r : QueryResult) (it : Item)
    (hq : query_items st ("USER#" ++ userId) (some "PROJECT#") (some lim) tok =
      Except.ok r)
    (hmem : it ∈ r.items)
    (herr : (dynamodb_item_to_model f n it).isOk = false) :
    list_projects f n st userId lim tok =
      { items := [], next_token := none, total_count := none } := by
  unfold list_projects
  rw [hq]
  dsimp only
  have hd := decodeItems_isOk_false f n r.items it hmem herr
  cases hres : decodeItems f n r.items with
  | error e => rfl
  | ok ps => rw [hres] at hd; simp [Except.isOk, Except.toBool] at hd

/-- C6 witness: the amended statement applied to the concrete mixed store. -/
theorem list_decode_failure_fatal_witness :
    list_projects "fresh" 0 listMixedStore "U1" 20 none =
      { items := [], next_token := none, total_count := none } :=
  list_decode_failure_fatal_amended "fresh" 0 listMixedStore "U1" 20 none
    { items := [listGoodItem, listBadItem], next_token := none } listBadItem
    rfl (List.mem_cons_of_mem listGoodItem (List.mem_cons_self listBadItem []))
    rfl

/-- C7. The claim says the construction synthesizes a well-formed expression
for any non-empty patch and a timestamp-only update for an empty patch. For
every non-empty patch the expression is indeed well-formed (including the
single-field case), but for the empty patch the code produces
"SET , #updated_at = :updated_at" — an empty first clause the backend
grammar rejects, so no timestamp-only update can be performed. -/
theorem update_expression_wellformedness (u : ProjectUpdate) :
    (updateFields u ≠ [] →
      isWellFormedSetExpr (buildUpdateExpression (updateFields u)) = true) ∧
    buildUpdateExpression [] = "SET , #updated_at = :updated_at" ∧
    isWellFormedSetExpr (buildUpdateExpression []) = false := by
  refine ⟨?_, by decide, by decide⟩
  obtain ⟨nm, ni, a, t, s⟩ := u
  cases nm <;> cases ni <;> cases a <;> cases t <;> cases s <;> intro h <;>
    simp [updateFields] at h ⊢ <;> decide

/-- C7 witness: a patch with exactly one entry yields a well-formed
expression. -/
theorem update_expression_wellformedness_witness :
    isWellFormedSetExpr (buildUpdateExpression (updateFields
      { name := some "Weekly Vlog v2", niche := none, target_audience := none,
        topic := none, status := none })) = true :=
  (update_expression_wellformedness
    { name := some "Weekly Vlog v2", niche := none, target_audience := none,
      topic := none, status := none }).1 (by decide)

/-- C8. A token whose header carries a key id not present in the cached
public-key set is rejected: verify_token returns `None` (every internal
failure, including the empty-cache refresh failure, is converted to `None`
by the method's handler — it never throws), and a rejected token never
yields claims. -/
theorem verify_token_unknown_kid_rejected (m : AuthManager)
    (token kid sub aud iss sig : String)
    (hp : jwtParts token = some (kid, sub, aud, iss, sig))
    (hk : alistLookup m.public_keys kid = none) :
    verify_token m token = none := by
  unfold verify_token
  rw [hp]
  unfold get_public_keys
  cases hemp : m.public_keys.isEmpty with
  | true => simp
  | false => simp [hk]

/-- An auth manager with a populated single-key cache. -/
def authSampleManager : AuthManager :=
  { user_pool_id := "pool1", app_client_id := "app1", region := "reg1",
    public_keys := [("k1", "sek")] }

/-- A token naming a key id absent from the cached key set. -/
def authUnknownKidToken : String :=
  "k9|U7|app1|https://cognito-idp.reg1.amazonaws.com/pool1|sek"

/-- C8 witness: the unknown-key-id rejection at a concrete token and cache. -/
theorem verify_token_unknown_kid_witness :
    verify_token authSampleManager authUnknownKidToken = none :=
  verify_token_unknown_kid_rejected authSampleManager authUnknownKidToken
    "k9" "U7" "app1" "https://cognito-idp.reg1.amazonaws.com/pool1" "sek"
    (by decide) (by decide)

/-- C9. The claim says a successful create_project returns a fresh active
record retrievable via get_project. In the code the encoded item omits the
`pk`/`sk` key attributes (they are `Field(exclude=True)`), the store
rejects an item missing its keys, put returns `False`, and create_project
returns `None` for every input with the store unchanged — creation never
succeeds and nothing becomes retrievable. -/
theorem create_project_always_absent (f : String) (nowC nowU : Nat) (st : Store)
    (userId : String) (inp : ProjectInput) :
    create_project f nowC nowU st userId inp = (none, st) := rfl

/-- C10. The Lambda authorizer allows exactly when a token is present
(non-falsy) and verify_token accepts the stripped token; in every other
case it denies. An allow decision's principal id is the verified claims'
subject entry, falling back to "user" when the subject is absent. -/
theorem lambda_authorizer_allow_iff (m : AuthManager) (event : AuthorizerEvent) :
    ((lambda_authorizer m event).effect = "Allow" ↔
      ∃ t c, event.authorizationToken = some t ∧ t ≠ "" ∧
        verify_token m (stripBearer t) = some c) ∧
    (∀ t c, event.authorizationToken = some t →
      verify_token m (stripBearer t) = some c →
      (lambda_authorizer m event).principalId = claimsGet c "sub" "user") := by
  constructor
  · constructor
    · intro hAl
      unfold lambda_authorizer at hAl
      cases hat : event.authorizationToken with
      | none => rw [hat] at hAl; simp [generate_policy] at hAl
      | some t =>
        rw [hat] at hAl
        dsimp only at hAl
        by_cases ht : t = ""
        · rw [if_pos ht] at hAl; simp [generate_policy] at hAl
        · rw [if_neg ht] at hAl
          cases hv : verify_token m (stripBearer t) with
          | none => rw [hv] at hAl; simp [generate_policy] at hAl
          | some c =>
            exact ⟨t, c, rfl, ht, hv⟩
    · rintro ⟨t, c, hat, ht, hv⟩
      unfold lambda_authorizer
      rw [hat]
      dsimp only
      rw [if_neg ht, hv]
      dsimp only
      have hne := verify_token_claims_ne_empty m (stripBearer t) c hv
      rw [hne]
      simp [generate_policy]
  · intro t c hat hv
    unfold lambda_authorizer
    rw [hat]
    by_cases ht : t = ""
    · subst ht
      rw [show verify_token m (stripBearer "") = none from rfl] at hv
      cases hv
    · dsimp only
      rw [if_neg ht, hv]
      dsimp only
      cases hc : c.isEmpty with
      | true =>
        have hnil : c = [] := List.isEmpty_iff.mp hc
        subst hnil
        simp [generate_policy, claimsGet, alistLookup]
      | false => simp [generate_policy]

/-- A token correctly signed with the cached key, carrying the configured
audience and issuer and subject U7. -/
def authSampleToken : String :=
  "k1|U7|app1|https://cognito-idp.reg1.amazonaws.com/pool1|sek"

/-- An authorizer event presenting the sample token with a Bearer prefix. -/
def authSampleEvent : AuthorizerEvent :=
  { authorizationToken := some ("Bearer " ++ authSampleToken),
    methodArn := "arn:aws:execute-api:reg1" }

/-- The claims the sample token verifies to. -/
def authSampleClaims : Claims :=
  [("sub", "U7"), ("aud", "app1"),
   ("iss", "https://cognito-idp.reg1.amazonaws.com/pool1")]

/-- C10 witness: the allow path at a concrete verified token takes its
principal id from the subject claim. -/
theorem lambda_authorizer_allow_iff_witness :
    (lambda_authorizer authSampleManager authSampleEvent).principalId =
      claimsGet authSampleClaims "sub" "user" :=
  (lambda_authorizer_allow_iff authSampleManager authSampleEvent).2
    ("Bearer " ++ authSampleToken) authSampleClaims rfl (by decide)

end ContentForge
